import Mathlib

/-!
Verification development for the BresserUSB weewx driver
(src/bin/weewx/drivers/bresser.py).

The driver is shallowly embedded as follows.

Time values returned by the host clock (Python time.time, a float of
seconds) are modelled as integers (whole seconds); the claims under
study only concern whole-second intervals (15 s pacing, 70 s / -10 s
drift bounds), so sub-second resolution is irrelevant to them.

Python datetime values (minute-resolution station timestamps parsed via
strptime, host datetime.now()) are modelled by the structure PyDateTime
with integer fields; datetime subtraction and total_seconds() are
modelled by converting each datetime to a count of seconds since a
fixed epoch (dtSeconds, using the standard civil-calendar day count).

Exceptions are modelled with Except; the byte blocks returned by USB
interrupt reads are lists of byte values (List Nat); datasets are the
byte/character sequences accumulated from them, and the dataset string
handed to the parsing code is a String of those characters.
-/

/-- Python datetime value (naive).  strptime with format
"%Y-%m-%d %H:%M" produces one with second = 0. -/
structure PyDateTime where
  year : Nat
  month : Nat
  day : Nat
  hour : Nat
  minute : Nat
  second : Nat
deriving DecidableEq, Repr

/-- Gregorian leap-year rule, as used by Python datetime. -/
def isLeapYear (y : Nat) : Bool :=
  y % 4 = 0 && (y % 100 ≠ 0 || y % 400 = 0)

/-- Number of days in a month, as validated by the datetime constructor. -/
def daysInMonth (y m : Nat) : Nat :=
  if m = 2 then (if isLeapYear y then 29 else 28)
  else if m = 4 || m = 6 || m = 9 || m = 11 then 30
  else 31

/-- Days since 1970-01-01 of the civil date y-m-d (standard
days-from-civil algorithm); defined for y ≥ 1, 1 ≤ m ≤ 12. -/
def daysFromCivil (y m d : Nat) : Int :=
  let yAdj : Nat := if m ≤ 2 then y - 1 else y
  let era : Nat := yAdj / 400
  let yoe : Nat := yAdj % 400
  let mp : Nat := if m > 2 then m - 3 else m + 9
  let doy : Nat := (153 * mp + 2) / 5 + (d - 1)
  let doe : Nat := yoe * 365 + yoe / 4 - yoe / 100 + doy
  (era * 146097 + doe : Int) - 719468

/-- Seconds since the epoch of a PyDateTime; the difference of two of
these is exactly Python <dt1 - dt2>.total_seconds() for whole-second
datetimes. -/
def dtSeconds (t : PyDateTime) : Int :=
  daysFromCivil t.year t.month t.day * 86400
    + (t.hour * 3600 + t.minute * 60 + t.second : Nat)

/-! ## strptime "%Y-%m-%d %H:%M"

CPython strptime compiles the format into a regex:
%Y matches exactly four digits, %m matches 1[0-2]|0[1-9]|[1-9],
%d matches 3[01]|[12][0-9]|0[1-9]|[1-9], %H matches 2[0-3]|[0-1][0-9]|[0-9],
%M matches [0-5][0-9]|[0-9]; a whitespace in the format matches a run of
whitespace, and the whole input must be consumed.  The datetime
constructor then validates year ≥ 1 and day ≤ daysInMonth.  Since each
variable-width numeric field here is followed by a non-digit literal (or
end of input), greedy matching agrees with the backtracking regex. -/

def isDigitCh (c : Char) : Bool :=
  48 ≤ c.toNat && c.toNat ≤ 57

def digitVal (c : Char) : Nat := c.toNat - 48

/-- Format directive %Y: exactly four digits. -/
def matchYear : List Char → Option (Nat × List Char)
  | c1 :: c2 :: c3 :: c4 :: rest =>
    if isDigitCh c1 && isDigitCh c2 && isDigitCh c3 && isDigitCh c4 then
      some (1000 * digitVal c1 + 100 * digitVal c2 + 10 * digitVal c3 + digitVal c4, rest)
    else none
  | _ => none

/-- Format directive %m: 1[0-2]|0[1-9]|[1-9]. -/
def matchMonth : List Char → Option (Nat × List Char)
  | c1 :: c2 :: rest =>
    if c1 = '1' && (c2 = '0' || c2 = '1' || c2 = '2') then
      some (10 + digitVal c2, rest)
    else if c1 = '0' && isDigitCh c2 && c2 ≠ '0' then
      some (digitVal c2, rest)
    else if isDigitCh c1 && c1 ≠ '0' then
      some (digitVal c1, c2 :: rest)
    else none
  | [c1] =>
    if isDigitCh c1 && c1 ≠ '0' then some (digitVal c1, []) else none
  | [] => none

/-- Format directive %d: 3[01]|[12][0-9]|0[1-9]|[1-9]. -/
def matchDay : List Char → Option (Nat × List Char)
  | c1 :: c2 :: rest =>
    if c1 = '3' && (c2 = '0' || c2 = '1') then
      some (30 + digitVal c2, rest)
    else if (c1 = '1' || c1 = '2') && isDigitCh c2 then
      some (10 * digitVal c1 + digitVal c2, rest)
    else if c1 = '0' && isDigitCh c2 && c2 ≠ '0' then
      some (digitVal c2, rest)
    else if isDigitCh c1 && c1 ≠ '0' then
      some (digitVal c1, c2 :: rest)
    else none
  | [c1] =>
    if isDigitCh c1 && c1 ≠ '0' then some (digitVal c1, []) else none
  | [] => none

/-- Format directive %H: 2[0-3]|[0-1][0-9]|[0-9]. -/
def matchHour : List Char → Option (Nat × List Char)
  | c1 :: c2 :: rest =>
    if c1 = '2' && (c2 = '0' || c2 = '1' || c2 = '2' || c2 = '3') then
      some (20 + digitVal c2, rest)
    else if (c1 = '0' || c1 = '1') && isDigitCh c2 then
      some (10 * digitVal c1 + digitVal c2, rest)
    else if isDigitCh c1 then
      some (digitVal c1, c2 :: rest)
    else none
  | [c1] =>
    if isDigitCh c1 then some (digitVal c1, []) else none
  | [] => none

/-- Format directive %M: [0-5][0-9]|[0-9]. -/
def matchMinute : List Char → Option (Nat × List Char)
  | c1 :: c2 :: rest =>
    if digitVal c1 ≤ 5 && isDigitCh c1 && isDigitCh c2 then
      some (10 * digitVal c1 + digitVal c2, rest)
    else if isDigitCh c1 then
      some (digitVal c1, c2 :: rest)
    else none
  | [c1] =>
    if isDigitCh c1 then some (digitVal c1, []) else none
  | [] => none

/-- The six whitespace characters Python 2 str treats as whitespace. -/
def pyIsSpace (c : Char) : Bool :=
  c = ' ' || c = '\t' || c = '\n' || c = '\x0d' || c = '\x0b' || c = '\x0c'

/-- One or more whitespace characters (the regex a format-string blank
compiles to). -/
def matchSpaces : List Char → Option (List Char)
  | c :: cs =>
    if pyIsSpace c then some (cs.dropWhile pyIsSpace) else none
  | [] => none

/-- Expect one literal character. -/
def matchLit (lit : Char) : List Char → Option (List Char)
  | c :: cs => if c = lit then some cs else none
  | [] => none

/-- datetime.strptime(s, "%Y-%m-%d %H:%M"): parse and validate; none
models the ValueError path. -/
def parseDateTime (s : String) : Option PyDateTime := do
  let (y, cs) ← matchYear s.toList
  let cs ← matchLit '-' cs
  let (m, cs) ← matchMonth cs
  let cs ← matchLit '-' cs
  let (d, cs) ← matchDay cs
  let cs ← matchSpaces cs
  let (h, cs) ← matchHour cs
  let cs ← matchLit ':' cs
  let (mi, cs) ← matchMinute cs
  if cs = [] && 1 ≤ y && 1 ≤ d && d ≤ daysInMonth y m then
    some ⟨y, m, d, h, mi, 0⟩
  else
    none

/-- Split a character list on runs of whitespace, accumulating the
current (reversed) token; empty pieces are dropped. -/
def splitWsAux : List Char → List Char → List String
  | [], acc => if acc = [] then [] else [String.mk acc.reverse]
  | c :: cs, acc =>
    if pyIsSpace c then
      if acc = [] then splitWsAux cs []
      else String.mk acc.reverse :: splitWsAux cs []
    else splitWsAux cs (c :: acc)

/-- Python str.split() with no argument: split on runs of whitespace,
discarding empty pieces. -/
def pySplit (s : String) : List String :=
  splitWsAux s.toList []

/-! ## Reading Record (the _packet dict of genLoopPackets) -/

/-- A Python dict value in the packet: the record timestamp and the
unit-system tag are numbers, every sensor field is the raw token
string. -/
inductive Val where
  | vInt (i : Int)
  | vStr (s : String)
deriving DecidableEq, Repr

/-- The external constant weewx.US (unit-system tag).  Its numeric value
lives outside this repository; the claims only use that it is one fixed
constant. -/
def weewx_US : Int := 1

/-- The _packet dict literal of genLoopPackets, as an association list
in source order.  ds is the whitespace-split token list; the_time is
the pacing clock used for dateTime (int(self.the_time + 0.5), which on
whole seconds is the_time itself). -/
def mkPacket (the_time : Int) (ds : List String) : List (String × Val) :=
  [("dateTime", Val.vInt the_time),
   ("inTemp", Val.vStr (ds.getD 3 "")),
   ("inHumidity", Val.vStr (ds.getD 4 "")),
   ("outTemp", Val.vStr (ds.getD 5 "")),
   ("outHumidity", Val.vStr (ds.getD 6 "")),
   ("rain", Val.vStr (ds.getD 7 "")),
   ("rainDaily", Val.vStr (ds.getD 8 "")),
   ("windSpeed", Val.vStr (ds.getD 9 "")),
   ("windGust", Val.vStr (ds.getD 10 "")),
   ("windDir", Val.vStr (ds.getD 11 "")),
   ("windCardinal", Val.vStr (ds.getD 12 "")),
   ("pressure", Val.vStr (ds.getD 13 "")),
   ("pressureAbs", Val.vStr (ds.getD 14 "")),
   ("UV", Val.vStr (ds.getD 15 "")),
   ("dewPoint", Val.vStr (ds.getD 16 "")),
   ("heatIndex", Val.vStr (ds.getD 17 "")),
   ("ch1Temp  ", Val.vStr (ds.getD 18 "")),
   ("ch1Humidity", Val.vStr (ds.getD 19 "")),
   ("ch2Temp  ", Val.vStr (ds.getD 20 "")),
   ("ch2Humidity", Val.vStr (ds.getD 21 "")),
   ("ch3Temp  ", Val.vStr (ds.getD 22 "")),
   ("ch3Humidity", Val.vStr (ds.getD 23 "")),
   ("ch4Temp  ", Val.vStr (ds.getD 24 "")),
   ("ch4Humidity", Val.vStr (ds.getD 25 "")),
   ("ch5Temp  ", Val.vStr (ds.getD 26 "")),
   ("ch5Humidity", Val.vStr (ds.getD 27 "")),
   ("ch6Temp  ", Val.vStr (ds.getD 28 "")),
   ("ch6Humidity", Val.vStr (ds.getD 29 "")),
   ("ch7Temp  ", Val.vStr (ds.getD 30 "")),
   ("ch7Humidity", Val.vStr (ds.getD 31 "")),
   ("usUnits", Val.vInt weewx_US)]

/-- The key list of the packet dict, in source order (note the two
trailing blanks in each chNTemp key, exactly as in the source). -/
def fixedKeys : List String :=
  ["dateTime", "inTemp", "inHumidity", "outTemp", "outHumidity",
   "rain", "rainDaily", "windSpeed", "windGust", "windDir",
   "windCardinal", "pressure", "pressureAbs", "UV", "dewPoint",
   "heatIndex", "ch1Temp  ", "ch1Humidity", "ch2Temp  ", "ch2Humidity",
   "ch3Temp  ", "ch3Humidity", "ch4Temp  ", "ch4Humidity",
   "ch5Temp  ", "ch5Humidity", "ch6Temp  ", "ch6Humidity",
   "ch7Temp  ", "ch7Humidity", "usUnits"]

/-! ## Clock Synchronizer and Loop Pacer -/

/-- self.loop_interval (seconds). -/
def loop_interval : Int := 15

/-- The drift check of genLoopPackets: deltat = computer_now -
station_now; sync when deltat.total_seconds() > 70 or < -10. -/
def needsTimeSet (computer_now station_now : PyDateTime) : Bool :=
  decide (dtSeconds computer_now - dtSeconds station_now > 70)
    || decide (dtSeconds computer_now - dtSeconds station_now < -10)

/-- The pacing step after a yield: sleep_time = the_time +
loop_interval - now; if positive, sleep and advance the_time by
loop_interval; else reset the_time to now.  Returns the new
the_time. -/
def paceUpdate (the_time now : Int) : Int :=
  if the_time + loop_interval - now > 0 then the_time + loop_interval
  else now

/-- Zero-processing-latency run of the production loop, recording the
dateTime of each emitted record: each iteration emits at the current
the_time, and with zero latency the host clock at the pacing point
equals the time the record was emitted. -/
def emissionTimes : Nat → Int → List Int
  | 0, _ => []
  | n + 1, t => t :: emissionTimes n (paceUpdate t t)

/-! ## setTime and its exception behaviour -/

/-- Exceptions that the embedded fragments can raise. -/
inductive PyError where
  | usbError
  | nameError
deriving DecidableEq, Repr

/-- BresserUSB.setTime: two control transfers inside
try/except.  The except clause is written <except e:> with no name e in
scope, so when either transfer raises, evaluating the clause raises
NameError, which propagates to the caller in place of the original
error.  The two arguments are the outcomes of the two control
transfers (the second is attempted only when the first succeeds). -/
def setTime (t1 t2 : Except PyError Unit) : Except PyError Unit :=
  match t1 with
  | Except.error _ => Except.error PyError.nameError
  | Except.ok _ =>
    match t2 with
    | Except.error _ => Except.error PyError.nameError
    | Except.ok _ => Except.ok ()

/-! ## One iteration of genLoopPackets -/

/-- What the transport produces for one iteration: either the
reassembled dataset string, or a usb.core.USBError raised mid
reassembly. -/
inductive UsbEvent where
  | usbError
  | dataset (s : String)
deriving DecidableEq, Repr

/-- Driver state across iterations: the pacing clock self.the_time and
whether a port handle is held (self.devh is not None). -/
structure DriverState where
  the_time : Int
  portOpen : Bool
deriving DecidableEq, Repr

/-- Outcome of one iteration of the genLoopPackets while-loop body. -/
inductive StepResult where
  /-- usb.core.USBError caught: closePort, openPort (blocks until
  discovery succeeds), the_time reset to the current clock, continue. -/
  | recovered (st : DriverState)
  /-- malformed dataset (wrong token count or bad timestamp): logged,
  record discarded, continue. -/
  | skip (st : DriverState)
  /-- a record was yielded (timeSetIssued tells whether the drift check
  invoked setTime first), then the pacing update ran. -/
  | emit (packet : List (String × Val)) (timeSetIssued : Bool) (st : DriverState)
  /-- an exception escaped the loop body (only possible from setTime,
  which has no surrounding try). -/
  | crashed (e : PyError) (st : DriverState)
deriving DecidableEq, Repr

/-- One iteration of the genLoopPackets loop body.  computer_now is
datetime.now() at the drift check; setTimeRes is what self.setTime()
returns or raises if invoked; tErr is time.time() at the recovery
reset (line 175); tPace is time.time() at the pacing computation. -/
def loopStep (st : DriverState) (ev : UsbEvent) (computer_now : PyDateTime)
    (setTimeRes : Except PyError Unit) (tErr tPace : Int) : StepResult :=
  match ev with
  | UsbEvent.usbError =>
    StepResult.recovered { the_time := tErr, portOpen := true }
  | UsbEvent.dataset s =>
    let ds := pySplit s
    if ds.length ≠ 32 then
      StepResult.skip st
    else
      match parseDateTime (ds.getD 1 "" ++ " " ++ ds.getD 2 "") with
      | none => StepResult.skip st
      | some station_now =>
        if needsTimeSet computer_now station_now then
          match setTimeRes with
          | Except.error e => StepResult.crashed e st
          | Except.ok _ =>
            StepResult.emit (mkPacket st.the_time ds) true
              { the_time := paceUpdate st.the_time tPace, portOpen := st.portOpen }
        else
          StepResult.emit (mkPacket st.the_time ds) false
            { the_time := paceUpdate st.the_time tPace, portOpen := st.portOpen }

/-! ## Frame Reassembler (read_usb_dataset)

A raw block is the 64-byte list returned by one interrupt read.
response[0] is the packet type, response[5] the sequence code,
response[6] the declared payload length, response[7:7+len] the payload.
The stream of blocks the device would return is modelled as a list; an
exhausted list models a read that never returns (none). -/

def packetcount (b : List Nat) : Nat := b.getD 5 0

def packetlen (b : List Nat) : Nat := b.getD 6 0

/-- response[7:7+packetlen]: the characters one block contributes. -/
def payloadOf (b : List Nat) : List Nat :=
  (b.drop 7).take (packetlen b)

/-- Sequence codes that keep the accumulation loop running. -/
def isDataSeq (c : Nat) : Bool :=
  c = 0x31 || c = 0x32 || c = 0x33

/-- The second while loop: while packetcount in [0x31, 0x32, 0x33],
append the payload and read the next block. -/
def accumFrom : List Nat → List (List Nat) → Option (List Nat)
  | resp, stream =>
    if isDataSeq (packetcount resp) then
      match stream with
      | [] => none
      | r :: rest => (accumFrom r rest).map (fun tail => payloadOf resp ++ tail)
    else
      some []

/-- BresserUSB.read_usb_dataset over a stream of blocks: skip blocks
until one with sequence code 0x31 (the first while loop), then
accumulate payloads while the code stays in {0x31, 0x32, 0x33}. -/
def read_usb_dataset : List (List Nat) → Option (List Nat)
  | [] => none
  | r :: rest =>
    if packetcount r = 0x31 then accumFrom r rest
    else read_usb_dataset rest

/-! ## Concrete fixtures -/

/-- The canonical dataset text from the source comment (line 179). -/
def fixtureStr : String :=
  "2 2019-06-18 23:33 25.4 58 19.5 69 0.0 0.0 3.6 3.6 253 WSW 1014 953 0 13.6 --.- --.- -- --.- -- --.- -- --.- -- --.- -- --.- -- --.- --"

/-- A 64-byte block with the given sequence code, declared payload
length and payload filler byte. -/
def mkBlock (seq len fill : Nat) : List Nat :=
  [0xfe, 0, 0, 0, 0, seq, len] ++ List.replicate 57 fill

/-! ## Helper lemmas -/

/-- A 64-byte block contributes exactly min(packetlen, 57) characters:
the Python slice response[7:7+packetlen] cannot read past the end of
the 64-byte list. -/
theorem payloadOf_length_of_block {b : List Nat} (h : b.length = 64) :
    (payloadOf b).length = min (packetlen b) 57 := by
  simp [payloadOf, List.length_take, List.length_drop, h]

/-- Evaluation of paceUpdate when the pipeline is running on time. -/
theorem paceUpdate_self (t : Int) : paceUpdate t t = t + 15 := by
  simp [paceUpdate, loop_interval]

/-- Closed form of the zero-latency emission run. -/
theorem emissionTimes_getD (n : Nat) :
    ∀ (t : Int) (i : Nat), i < n →
      (emissionTimes n t).getD i 0 = t + 15 * i := by
  induction n with
  | zero => intro t i h; omega
  | succ n ih =>
    intro t i h
    cases i with
    | zero => simp [emissionTimes]
    | succ i =>
      have hi : i < n := by omega
      calc (emissionTimes (n + 1) t).getD (i + 1) 0
          = (emissionTimes n (paceUpdate t t)).getD i 0 := by
            simp [emissionTimes]
        _ = t + 15 * (i + 1) := by
            rw [paceUpdate_self, ih (t + 15) i hi]; ring

/-- The accumulation loop over a run of data blocks followed by a
terminator collects exactly the payloads of the run. -/
theorem accumFrom_run (term : List Nat)
    (hterm : isDataSeq (packetcount term) = false) :
    ∀ (mids : List (List Nat)) (resp : List Nat),
      isDataSeq (packetcount resp) = true →
      (∀ b ∈ mids, isDataSeq (packetcount b) = true) →
      accumFrom resp (mids ++ [term]) = some ((resp :: mids).map payloadOf).flatten := by
  intro mids
  induction mids with
  | nil =>
    intro resp hresp _
    simp [accumFrom, hresp, hterm]
  | cons m rest ih =>
    intro resp hresp hall
    have hm : isDataSeq (packetcount m) = true := hall m (by simp)
    have hrest : ∀ b ∈ rest, isDataSeq (packetcount b) = true := by
      intro b hb; exact hall b (by simp [hb])
    rw [show (m :: rest) ++ [term] = m :: (rest ++ [term]) by simp]
    rw [accumFrom]
    simp only [hresp, if_true]
    rw [ih m hm hrest]
    simp

/-- When the split has 32 tokens and the timestamp parses, the loop
body builds the packet from the split tokens and the pacing clock and
yields it, whatever the drift check decides (setTime assumed to
return). -/
theorem loopStep_emits (st : DriverState) (s : String) (computer : PyDateTime)
    (tErr tPace : Int) (dt : PyDateTime)
    (hlen : (pySplit s).length = 32)
    (hdt : parseDateTime ((pySplit s).getD 1 "" ++ " " ++ (pySplit s).getD 2 "") = some dt) :
    loopStep st (UsbEvent.dataset s) computer (Except.ok ()) tErr tPace
      = StepResult.emit (mkPacket st.the_time (pySplit s)) (needsTimeSet computer dt)
          ⟨paceUpdate st.the_time tPace, st.portOpen⟩ := by
  simp only [loopStep, hlen, hdt]
  cases hs : needsTimeSet computer dt <;> simp [hs]

/-- C1: for every input dataset string that splits on whitespace into
exactly 32 tokens whose tokens 1-2 parse as a YYYY-MM-DD HH:MM
timestamp, one iteration of the production loop emits exactly one
record (a single StepResult.emit), and each of tokens 3 through 31 is
stored verbatim under its fixed field key, with no numeric coercion
(placeholder tokens such as "--.-" pass through unchanged). -/
theorem c1_parser_roundtrip (st : DriverState) (s : String)
    (computer : PyDateTime) (tErr tPace : Int) (dt : PyDateTime)
    (hlen : (pySplit s).length = 32)
    (hdt : parseDateTime ((pySplit s).getD 1 "" ++ " " ++ (pySplit s).getD 2 "") = some dt) :
    loopStep st (UsbEvent.dataset s) computer (Except.ok ()) tErr tPace
      = StepResult.emit (mkPacket st.the_time (pySplit s)) (needsTimeSet computer dt)
          ⟨paceUpdate st.the_time tPace, st.portOpen⟩
    ∧ List.lookup "inTemp" (mkPacket st.the_time (pySplit s)) = some (Val.vStr ((pySplit s).getD 3 ""))
    ∧ List.lookup "inHumidity" (mkPacket st.the_time (pySplit s)) = some (Val.vStr ((pySplit s).getD 4 ""))
    ∧ List.lookup "outTemp" (mkPacket st.the_time (pySplit s)) = some (Val.vStr ((pySplit s).getD 5 ""))
    ∧ List.lookup "outHumidity" (mkPacket st.the_time (pySplit s)) = some (Val.vStr ((pySplit s).getD 6 ""))
    ∧ List.lookup "rain" (mkPacket st.the_time (pySplit s)) = some (Val.vStr ((pySplit s).getD 7 ""))
    ∧ List.lookup "rainDaily" (mkPacket st.the_time (pySplit s)) = some (Val.vStr ((pySplit s).getD 8 ""))
    ∧ List.lookup "windSpeed" (mkPacket st.the_time (pySplit s)) = some (Val.vStr ((pySplit s).getD 9 ""))
    ∧ List.lookup "windGust" (mkPacket st.the_time (pySplit s)) = some (Val.vStr ((pySplit s).getD 10 ""))
    ∧ List.lookup "windDir" (mkPacket st.the_time (pySplit s)) = some (Val.vStr ((pySplit s).getD 11 ""))
    ∧ List.lookup "windCardinal" (mkPacket st.the_time (pySplit s)) = some (Val.vStr ((pySplit s).getD 12 ""))
    ∧ List.lookup "pressure" (mkPacket st.the_time (pySplit s)) = some (Val.vStr ((pySplit s).getD 13 ""))
    ∧ List.lookup "pressureAbs" (mkPacket st.the_time (pySplit s)) = some (Val.vStr ((pySplit s).getD 14 ""))
    ∧ List.lookup "UV" (mkPacket st.the_time (pySplit s)) = some (Val.vStr ((pySplit s).getD 15 ""))
    ∧ List.lookup "dewPoint" (mkPacket st.the_time (pySplit s)) = some (Val.vStr ((pySplit s).getD 16 ""))
    ∧ List.lookup "heatIndex" (mkPacket st.the_time (pySplit s)) = some (Val.vStr ((pySplit s).getD 17 ""))
    ∧ List.lookup "ch1Temp  " (mkPacket st.the_time (pySplit s)) = some (Val.vStr ((pySplit s).getD 18 ""))
    ∧ List.lookup "ch1Humidity" (mkPacket st.the_time (pySplit s)) = some (Val.vStr ((pySplit s).getD 19 ""))
    ∧ List.lookup "ch2Temp  " (mkPacket st.the_time (pySplit s)) = some (Val.vStr ((pySplit s).getD 20 ""))
    ∧ List.lookup "ch2Humidity" (mkPacket st.the_time (pySplit s)) = some (Val.vStr ((pySplit s).getD 21 ""))
    ∧ List.lookup "ch3Temp  " (mkPacket st.the_time (pySplit s)) = some (Val.vStr ((pySplit s).getD 22 ""))
    ∧ List.lookup "ch3Humidity" (mkPacket st.the_time (pySplit s)) = some (Val.vStr ((pySplit s).getD 23 ""))
    ∧ List.lookup "ch4Temp  " (mkPacket st.the_time (pySplit s)) = some (Val.vStr ((pySplit s).getD 24 ""))
    ∧ List.lookup "ch4Humidity" (mkPacket st.the_time (pySplit s)) = some (Val.vStr ((pySplit s).getD 25 ""))
    ∧ List.lookup "ch5Temp  " (mkPacket st.the_time (pySplit s)) = some (Val.vStr ((pySplit s).getD 26 ""))
    ∧ List.lookup "ch5Humidity" (mkPacket st.the_time (pySplit s)) = some (Val.vStr ((pySplit s).getD 27 ""))
    ∧ List.lookup "ch6Temp  " (mkPacket st.the_time (pySplit s)) = some (Val.vStr ((pySplit s).getD 28 ""))
    ∧ List.lookup "ch6Humidity" (mkPacket st.the_time (pySplit s)) = some (Val.vStr ((pySplit s).getD 29 ""))
    ∧ List.lookup "ch7Temp  " (mkPacket st.the_time (pySplit s)) = some (Val.vStr ((pySplit s).getD 30 ""))
    ∧ List.lookup "ch7Humidity" (mkPacket st.the_time (pySplit s)) = some (Val.vStr ((pySplit s).getD 31 "")) :=
  ⟨loopStep_emits st s computer tErr tPace dt hlen hdt,
   rfl,
   rfl,
   rfl,
   rfl,
   rfl,
   rfl,
   rfl,
   rfl,
   rfl,
   rfl,
   rfl,
   rfl,
   rfl,
   rfl,
   rfl,
   rfl,
   rfl,
   rfl,
   rfl,
   rfl,
   rfl,
   rfl,
   rfl,
   rfl,
   rfl,
   rfl,
   rfl,
   rfl,
   rfl⟩

/-- C1 witness: the canonical fixture dataset from the source comment,
evaluated concretely. -/
theorem c1_parser_roundtrip_witness :
    loopStep ⟨1000, true⟩ (UsbEvent.dataset fixtureStr) ⟨2019, 6, 18, 23, 33, 30⟩
        (Except.ok ()) 0 500
      = StepResult.emit (mkPacket 1000 (pySplit fixtureStr))
          (needsTimeSet ⟨2019, 6, 18, 23, 33, 30⟩ ⟨2019, 6, 18, 23, 33, 0⟩)
          ⟨paceUpdate 1000 500, true⟩
    ∧ List.lookup "inTemp" (mkPacket 1000 (pySplit fixtureStr)) = some (Val.vStr ((pySplit fixtureStr).getD 3 ""))
    ∧ List.lookup "inHumidity" (mkPacket 1000 (pySplit fixtureStr)) = some (Val.vStr ((pySplit fixtureStr).getD 4 ""))
    ∧ List.lookup "outTemp" (mkPacket 1000 (pySplit fixtureStr)) = some (Val.vStr ((pySplit fixtureStr).getD 5 ""))
    ∧ List.lookup "outHumidity" (mkPacket 1000 (pySplit fixtureStr)) = some (Val.vStr ((pySplit fixtureStr).getD 6 ""))
    ∧ List.lookup "rain" (mkPacket 1000 (pySplit fixtureStr)) = some (Val.vStr ((pySplit fixtureStr).getD 7 ""))
    ∧ List.lookup "rainDaily" (mkPacket 1000 (pySplit fixtureStr)) = some (Val.vStr ((pySplit fixtureStr).getD 8 ""))
    ∧ List.lookup "windSpeed" (mkPacket 1000 (pySplit fixtureStr)) = some (Val.vStr ((pySplit fixtureStr).getD 9 ""))
    ∧ List.lookup "windGust" (mkPacket 1000 (pySplit fixtureStr)) = some (Val.vStr ((pySplit fixtureStr).getD 10 ""))
    ∧ List.lookup "windDir" (mkPacket 1000 (pySplit fixtureStr)) = some (Val.vStr ((pySplit fixtureStr).getD 11 ""))
    ∧ List.lookup "windCardinal" (mkPacket 1000 (pySplit fixtureStr)) = some (Val.vStr ((pySplit fixtureStr).getD 12 ""))
    ∧ List.lookup "pressure" (mkPacket 1000 (pySplit fixtureStr)) = some (Val.vStr ((pySplit fixtureStr).getD 13 ""))
    ∧ List.lookup "pressureAbs" (mkPacket 1000 (pySplit fixtureStr)) = some (Val.vStr ((pySplit fixtureStr).getD 14 ""))
    ∧ List.lookup "UV" (mkPacket 1000 (pySplit fixtureStr)) = some (Val.vStr ((pySplit fixtureStr).getD 15 ""))
    ∧ List.lookup "dewPoint" (mkPacket 1000 (pySplit fixtureStr)) = some (Val.vStr ((pySplit fixtureStr).getD 16 ""))
    ∧ List.lookup "heatIndex" (mkPacket 1000 (pySplit fixtureStr)) = some (Val.vStr ((pySplit fixtureStr).getD 17 ""))
    ∧ List.lookup "ch1Temp  " (mkPacket 1000 (pySplit fixtureStr)) = some (Val.vStr ((pySplit fixtureStr).getD 18 ""))
    ∧ List.lookup "ch1Humidity" (mkPacket 1000 (pySplit fixtureStr)) = some (Val.vStr ((pySplit fixtureStr).getD 19 ""))
    ∧ List.lookup "ch2Temp  " (mkPacket 1000 (pySplit fixtureStr)) = some (Val.vStr ((pySplit fixtureStr).getD 20 ""))
    ∧ List.lookup "ch2Humidity" (mkPacket 1000 (pySplit fixtureStr)) = some (Val.vStr ((pySplit fixtureStr).getD 21 ""))
    ∧ List.lookup "ch3Temp  " (mkPacket 1000 (pySplit fixtureStr)) = some (Val.vStr ((pySplit fixtureStr).getD 22 ""))
    ∧ List.lookup "ch3Humidity" (mkPacket 1000 (pySplit fixtureStr)) = some (Val.vStr ((pySplit fixtureStr).getD 23 ""))
    ∧ List.lookup "ch4Temp  " (mkPacket 1000 (pySplit fixtureStr)) = some (Val.vStr ((pySplit fixtureStr).getD 24 ""))
    ∧ List.lookup "ch4Humidity" (mkPacket 1000 (pySplit fixtureStr)) = some (Val.vStr ((pySplit fixtureStr).getD 25 ""))
    ∧ List.lookup "ch5Temp  " (mkPacket 1000 (pySplit fixtureStr)) = some (Val.vStr ((pySplit fixtureStr).getD 26 ""))
    ∧ List.lookup "ch5Humidity" (mkPacket 1000 (pySplit fixtureStr)) = some (Val.vStr ((pySplit fixtureStr).getD 27 ""))
    ∧ List.lookup "ch6Temp  " (mkPacket 1000 (pySplit fixtureStr)) = some (Val.vStr ((pySplit fixtureStr).getD 28 ""))
    ∧ List.lookup "ch6Humidity" (mkPacket 1000 (pySplit fixtureStr)) = some (Val.vStr ((pySplit fixtureStr).getD 29 ""))
    ∧ List.lookup "ch7Temp  " (mkPacket 1000 (pySplit fixtureStr)) = some (Val.vStr ((pySplit fixtureStr).getD 30 ""))
    ∧ List.lookup "ch7Humidity" (mkPacket 1000 (pySplit fixtureStr)) = some (Val.vStr ((pySplit fixtureStr).getD 31 "")) :=
  c1_parser_roundtrip ⟨1000, true⟩ fixtureStr ⟨2019, 6, 18, 23, 33, 30⟩ 0 500
    ⟨2019, 6, 18, 23, 33, 0⟩ (by decide) (by decide)

/-- C2 counterexample: a start block declaring payload length 1
followed by one end block declaring payload length 5 (so the
middle/end declared lengths sum to L = 5) and a terminator block.  The
reassembled dataset has length 6, not 5: the accumulation loop appends
the start block payload as well. -/
theorem c2_reassembly_length_counterexample :
    packetcount (mkBlock 0x31 1 65) = 0x31
    ∧ packetcount (mkBlock 0x33 5 66) = 0x33
    ∧ isDataSeq (packetcount (mkBlock 0x10 0 67)) = false
    ∧ packetlen (mkBlock 0x33 5 66) = 5
    ∧ (read_usb_dataset [mkBlock 0x31 1 65, mkBlock 0x33 5 66, mkBlock 0x10 0 67]).map
        List.length ≠ some 5 := by
  refine ⟨rfl, rfl, rfl, rfl, by decide⟩

/-- C2 amended: for a start-code block followed by middle/end-code
blocks and then a non-data block, the reassembled dataset length is
the sum, over the start block and the middle/end blocks, of
min(declared payload length, 57) (each 64-byte block can contribute at
most the 57 bytes after its 7-byte header). -/
theorem c2_reassembly_length (b0 term : List Nat) (mids : List (List Nat))
    (hb0 : packetcount b0 = 0x31)
    (hmids : ∀ b ∈ mids, packetcount b = 0x32 ∨ packetcount b = 0x33)
    (hterm : isDataSeq (packetcount term) = false)
    (hsize : ∀ b ∈ b0 :: mids, b.length = 64) :
    (read_usb_dataset (b0 :: (mids ++ [term]))).map List.length
      = some (((b0 :: mids).map (fun b => min (packetlen b) 57)).sum) := by
  have hb0seq : isDataSeq (packetcount b0) = true := by simp [isDataSeq, hb0]
  have hmidseq : ∀ b ∈ mids, isDataSeq (packetcount b) = true := by
    intro b hb
    rcases hmids b hb with h | h <;> simp [isDataSeq, h]
  have hread : read_usb_dataset (b0 :: (mids ++ [term])) = accumFrom b0 (mids ++ [term]) := by
    simp [read_usb_dataset, hb0]
  rw [hread, accumFrom_run term hterm mids b0 hb0seq hmidseq]
  refine congrArg some ?_
  rw [List.length_flatten, List.map_map]
  exact congrArg List.sum
    (List.map_congr_left (fun b hb => payloadOf_length_of_block (hsize b hb)))

/-- C2 witness: a concrete start block (declared length 1) and one
middle block declaring 100 bytes (capped at 57), reassembled length
58. -/
theorem c2_reassembly_length_witness :
    (read_usb_dataset (mkBlock 0x31 1 65 :: ([mkBlock 0x32 100 66] ++ [mkBlock 0x10 0 67]))).map
        List.length
      = some (((mkBlock 0x31 1 65 :: [mkBlock 0x32 100 66]).map
          (fun b => min (packetlen b) 57)).sum) :=
  c2_reassembly_length (mkBlock 0x31 1 65) (mkBlock 0x10 0 67) [mkBlock 0x32 100 66]
    (by decide) (by decide) (by decide) (by decide)

/-- C3: a dataset whose whitespace split does not have exactly 32
tokens, or whose tokens 1-2 do not parse as a YYYY-MM-DD HH:MM
timestamp, produces no record: the loop body returns skip (the state
unchanged, no exception, the loop continues with the next
iteration). -/
theorem c3_malformed_skipped (st : DriverState) (s : String) (computer : PyDateTime)
    (setTimeRes : Except PyError Unit) (tErr tPace : Int)
    (h : (pySplit s).length ≠ 32 ∨
         parseDateTime ((pySplit s).getD 1 "" ++ " " ++ (pySplit s).getD 2 "") = none) :
    loopStep st (UsbEvent.dataset s) computer setTimeRes tErr tPace = StepResult.skip st := by
  by_cases h32 : (pySplit s).length ≠ 32
  · simp only [loopStep]
    rw [if_pos h32]
  · rcases h with h | hdt
    · exact absurd h h32
    · simp only [loopStep]
      rw [if_neg h32, hdt]

/-- C3 witness: a 32-token dataset whose month token is 13 fails the
timestamp parse and is skipped. -/
theorem c3_malformed_skipped_witness :
    loopStep ⟨1000, true⟩
      (UsbEvent.dataset
        "2 2019-13-18 23:33 25.4 58 19.5 69 0.0 0.0 3.6 3.6 253 WSW 1014 953 0 13.6 --.- --.- -- --.- -- --.- -- --.- -- --.- -- --.- -- --.- --")
      ⟨2019, 6, 18, 23, 33, 30⟩ (Except.ok ()) 0 500
      = StepResult.skip ⟨1000, true⟩ :=
  c3_malformed_skipped ⟨1000, true⟩ _ ⟨2019, 6, 18, 23, 33, 30⟩ (Except.ok ()) 0 500
    (Or.inr (by decide))

/-- C4: the drift check fires exactly when host time minus device time
exceeds +70 seconds or is below -10 seconds; in particular, with device
time 2019-06-18 23:33:00, a host time 71 seconds later triggers a
time-set (and the loop body then invokes setTime before emitting) while
a host time 30 seconds later does not. -/
theorem c4_drift_tolerance :
    (∀ c s : PyDateTime, needsTimeSet c s = true ↔
       (dtSeconds c - dtSeconds s > 70 ∨ dtSeconds c - dtSeconds s < -10))
    ∧ needsTimeSet ⟨2019, 6, 18, 23, 34, 11⟩ ⟨2019, 6, 18, 23, 33, 0⟩ = true
    ∧ needsTimeSet ⟨2019, 6, 18, 23, 33, 30⟩ ⟨2019, 6, 18, 23, 33, 0⟩ = false
    ∧ loopStep ⟨0, true⟩ (UsbEvent.dataset fixtureStr) ⟨2019, 6, 18, 23, 34, 11⟩
        (Except.ok ()) 0 0
      = StepResult.emit (mkPacket 0 (pySplit fixtureStr)) true ⟨15, true⟩
    ∧ loopStep ⟨0, true⟩ (UsbEvent.dataset fixtureStr) ⟨2019, 6, 18, 23, 33, 30⟩
        (Except.ok ()) 0 0
      = StepResult.emit (mkPacket 0 (pySplit fixtureStr)) false ⟨15, true⟩ := by
  refine ⟨fun c s => ?_, by decide, by decide, by decide, by decide⟩
  simp [needsTimeSet]

/-- C5: a usb.core.USBError raised by the transport during reassembly
never escapes the production loop: the iteration closes and reopens the
port and resets the pacing clock to the current time tErr (whatever the
pre-failure the_time was), and on the next iteration a well-formed
dataset is emitted again. -/
theorem c5_usb_error_recovery (st : DriverState) (computer : PyDateTime)
    (setTimeRes : Except PyError Unit) (tErr tPace : Int) :
    loopStep st UsbEvent.usbError computer setTimeRes tErr tPace
      = StepResult.recovered ⟨tErr, true⟩
    ∧ (∀ (s : String) (dt : PyDateTime),
        (pySplit s).length = 32 →
        parseDateTime ((pySplit s).getD 1 "" ++ " " ++ (pySplit s).getD 2 "") = some dt →
        loopStep ⟨tErr, true⟩ (UsbEvent.dataset s) computer (Except.ok ()) tErr tPace
          = StepResult.emit (mkPacket tErr (pySplit s)) (needsTimeSet computer dt)
              ⟨paceUpdate tErr tPace, true⟩) := by
  refine ⟨rfl, fun s dt hlen hdt => ?_⟩
  exact loopStep_emits ⟨tErr, true⟩ s computer tErr tPace dt hlen hdt

/-- C5 witness: recovery from a concrete pre-failure state, then an
emission of the fixture dataset from the recovered state. -/
theorem c5_usb_error_recovery_witness :
    loopStep ⟨999, false⟩ UsbEvent.usbError ⟨2019, 6, 18, 23, 33, 30⟩ (Except.ok ()) 500 520
      = StepResult.recovered ⟨500, true⟩
    ∧ loopStep ⟨500, true⟩ (UsbEvent.dataset fixtureStr) ⟨2019, 6, 18, 23, 33, 30⟩
        (Except.ok ()) 500 520
      = StepResult.emit (mkPacket 500 (pySplit fixtureStr))
          (needsTimeSet ⟨2019, 6, 18, 23, 33, 30⟩ ⟨2019, 6, 18, 23, 33, 0⟩)
          ⟨paceUpdate 500 520, true⟩ := by
  have h := c5_usb_error_recovery ⟨999, false⟩ ⟨2019, 6, 18, 23, 33, 30⟩ (Except.ok ()) 500 520
  exact ⟨h.1, h.2 fixtureStr ⟨2019, 6, 18, 23, 33, 0⟩ (by decide) (by decide)⟩

/-- C6: after an emission, a positive computed sleep advances the
pacing clock by exactly the 15 second interval, a non-positive one
resets it to the current time (one emission per iteration, never a
catch-up burst); consequently a zero-latency run of 10 consecutive
emissions has dateTime values exactly 15 seconds apart. -/
theorem c6_pacer_cadence :
    (∀ t now : Int,
       (t + loop_interval - now > 0 → paceUpdate t now = t + loop_interval)
       ∧ (t + loop_interval - now ≤ 0 → paceUpdate t now = now))
    ∧ (∀ (t0 : Int) (i : Nat), i + 1 < 10 →
        (emissionTimes 10 t0).getD (i + 1) 0 - (emissionTimes 10 t0).getD i 0 = 15) := by
  constructor
  · intro t now
    constructor
    · intro h
      simp only [paceUpdate]
      rw [if_pos h]
    · intro h
      simp only [paceUpdate]
      rw [if_neg (by omega)]
  · intro t0 i h
    rw [emissionTimes_getD 10 t0 (i + 1) (by omega), emissionTimes_getD 10 t0 i (by omega)]
    push_cast
    ring

/-- C6 witness: concrete pacing updates and the first gap of a
zero-latency 10-emission run. -/
theorem c6_pacer_cadence_witness :
    paceUpdate 100 100 = 100 + loop_interval
    ∧ paceUpdate 100 130 = 130
    ∧ (emissionTimes 10 100).getD 1 0 - (emissionTimes 10 100).getD 0 0 = 15 :=
  ⟨(c6_pacer_cadence.1 100 100).1 (by decide),
   (c6_pacer_cadence.1 100 130).2 (by decide),
   c6_pacer_cadence.2 100 0 (by decide)⟩

/-- C7: the claim says setTime never raises; in the code the
try/except around the two control transfers is written <except e:>
with no name e bound, so evaluating the except clause itself raises
NameError and a transfer failure propagates to the caller.  Only when
both transfers succeed does setTime return normally. -/
theorem c7_settime_raises :
    setTime (Except.error PyError.usbError) (Except.ok ())
      = Except.error PyError.nameError
    ∧ setTime (Except.ok ()) (Except.error PyError.usbError)
      = Except.error PyError.nameError
    ∧ setTime (Except.ok ()) (Except.ok ()) = Except.ok ()
    ∧ ∀ (e : PyError) (t2 : Except PyError Unit),
        setTime (Except.error e) t2 ≠ Except.ok () := by
  exact ⟨rfl, rfl, rfl, fun e t2 h => Except.noConfusion h⟩

/-- C8: an accepted dataset whose parsed device timestamp is outside
the drift-tolerance window still produces its record: the drift check
invokes setTime (which here returns) and the packet is built and
emitted exactly as in the in-tolerance case. -/
theorem c8_drift_still_emits (st : DriverState) (s : String) (computer : PyDateTime)
    (tErr tPace : Int) (dt : PyDateTime)
    (hlen : (pySplit s).length = 32)
    (hdt : parseDateTime ((pySplit s).getD 1 "" ++ " " ++ (pySplit s).getD 2 "") = some dt)
    (hdrift : needsTimeSet computer dt = true) :
    loopStep st (UsbEvent.dataset s) computer (Except.ok ()) tErr tPace
      = StepResult.emit (mkPacket st.the_time (pySplit s)) true
          ⟨paceUpdate st.the_time tPace, st.portOpen⟩ := by
  have h := loopStep_emits st s computer tErr tPace dt hlen hdt
  rwa [hdrift] at h

/-- C8 witness: the fixture dataset with host time 71 seconds ahead of
the device timestamp is still emitted (with the time-set flag). -/
theorem c8_drift_still_emits_witness :
    loopStep ⟨1000, true⟩ (UsbEvent.dataset fixtureStr) ⟨2019, 6, 18, 23, 34, 11⟩
        (Except.ok ()) 0 500
      = StepResult.emit (mkPacket 1000 (pySplit fixtureStr)) true
          ⟨paceUpdate 1000 500, true⟩ :=
  c8_drift_still_emits ⟨1000, true⟩ fixtureStr ⟨2019, 6, 18, 23, 34, 11⟩ 0 500
    ⟨2019, 6, 18, 23, 33, 0⟩ (by decide) (by decide) (by decide)

/-- C9: a 64-byte block appended by the reassembly loop contributes
exactly min(declared payload length, 57) characters: the slice
response[7:7+packetlen] stops at the end of the block, so a declared
length above 57 never reads past it; a single-block run accumulates
exactly that payload. -/
theorem c9_payload_capped (b term : List Nat) (h64 : b.length = 64)
    (hb : isDataSeq (packetcount b) = true)
    (hterm : isDataSeq (packetcount term) = false) :
    (payloadOf b).length = min (packetlen b) 57
    ∧ accumFrom b [term] = some (payloadOf b) := by
  refine ⟨payloadOf_length_of_block h64, ?_⟩
  have h := accumFrom_run term hterm [] b hb (by simp)
  simpa using h

/-- C9 witness: a block declaring 100 payload bytes contributes
exactly 57 characters. -/
theorem c9_payload_capped_witness :
    (payloadOf (mkBlock 0x31 100 65)).length = min (packetlen (mkBlock 0x31 100 65)) 57
    ∧ accumFrom (mkBlock 0x31 100 65) [mkBlock 0x10 0 67]
        = some (payloadOf (mkBlock 0x31 100 65)) :=
  c9_payload_capped (mkBlock 0x31 100 65) (mkBlock 0x10 0 67)
    (by decide) (by decide) (by decide)

/-- C10 counterexample: the claim describes the fixed key set of 31
keys as dateTime plus 28 sensor fields plus usUnits, but the packet
built from the fixture dataset has 31 keys of which 29 (not 28) are
sensor fields. -/
theorem c10_key_set_counterexample :
    ((mkPacket 0 (pySplit fixtureStr)).map Prod.fst).length = 31
    ∧ (((mkPacket 0 (pySplit fixtureStr)).map Prod.fst).filter
        (fun k => !(k == "dateTime") && !(k == "usUnits"))).length ≠ 28 := by
  refine ⟨by decide, by decide⟩

/-- C10 amended: every record the loop emits has exactly the fixed,
ordered key set of 31 keys (dateTime, 29 sensor fields, usUnits),
where the seven auxiliary-channel temperature keys are the literal
strings "ch1Temp  " through "ch7Temp  " with two trailing blanks, and
usUnits always carries the same constant unit-system tag. -/
theorem c10_key_set (st : DriverState) (ev : UsbEvent) (computer : PyDateTime)
    (setRes : Except PyError Unit) (tErr tPace : Int)
    (p : List (String × Val)) (sync : Bool) (st2 : DriverState)
    (h : loopStep st ev computer setRes tErr tPace = StepResult.emit p sync st2) :
    p.map Prod.fst = fixedKeys
    ∧ fixedKeys.length = 31
    ∧ (fixedKeys.filter (fun k => !(k == "dateTime") && !(k == "usUnits"))).length = 29
    ∧ List.lookup "usUnits" p = some (Val.vInt weewx_US) := by
  cases ev with
  | usbError => exact StepResult.noConfusion h
  | dataset s =>
    simp only [loopStep] at h
    by_cases h32 : (pySplit s).length ≠ 32
    · rw [if_pos h32] at h
      exact StepResult.noConfusion h
    · rw [if_neg h32] at h
      cases hdt : parseDateTime ((pySplit s).getD 1 "" ++ " " ++ (pySplit s).getD 2 "") with
      | none =>
        rw [hdt] at h
        exact StepResult.noConfusion h
      | some dtv =>
        rw [hdt] at h
        dsimp only at h
        by_cases hns : needsTimeSet computer dtv = true
        · rw [if_pos hns] at h
          cases setRes with
          | error e => exact StepResult.noConfusion h
          | ok u =>
            cases h
            exact ⟨rfl, rfl, rfl, rfl⟩
        · rw [if_neg hns] at h
          cases h
          exact ⟨rfl, rfl, rfl, rfl⟩

/-- C10 witness: the key-set property evaluated on the packet emitted
for the fixture dataset. -/
theorem c10_key_set_witness :
    (mkPacket 1000 (pySplit fixtureStr)).map Prod.fst = fixedKeys
    ∧ fixedKeys.length = 31
    ∧ (fixedKeys.filter (fun k => !(k == "dateTime") && !(k == "usUnits"))).length = 29
    ∧ List.lookup "usUnits" (mkPacket 1000 (pySplit fixtureStr))
        = some (Val.vInt weewx_US) :=
  c10_key_set ⟨1000, true⟩ (UsbEvent.dataset fixtureStr) ⟨2019, 6, 18, 23, 33, 30⟩
    (Except.ok ()) 0 500 (mkPacket 1000 (pySplit fixtureStr)) false
    ⟨paceUpdate 1000 500, true⟩ (by decide)
